import Mathlib

/-!
Verification development for `app/parse.py` of the e-commerce Selenium
scraping project.  The Python module is shallowly embedded: BeautifulSoup
snapshots, the Selenium driver and the live pages it serves are modelled
as explicit data, Python exceptions become an `Except` error type, Python
`float`/`int` parsing of decimal literals is modelled exactly (`Dec`/`Int`), and
the module-level `_driver` global becomes an explicit `Option Driver`
state threaded through the functions that read it.
-/

namespace Scrape

/-! ## Python string and number primitives used by `parse.py` -/

/-- Strip leading and trailing whitespace from a character list, as Python
`float`/`int` do to their string argument before parsing. -/
def stripWS (l : List Char) : List Char :=
  ((l.dropWhile Char.isWhitespace).reverse.dropWhile Char.isWhitespace).reverse

/-- Numeric value of a list of decimal digit characters (most significant
first), the accumulator loop underlying decimal-literal parsing. -/
def natOfDigits (l : List Char) : Nat :=
  l.foldl (fun a c => a * 10 + (c.toNat - 48)) 0

/-- An exact decimal number `mant / 10 ^ scale`, the value of a parsed
decimal literal.  Keeping the mantissa and scale explicit (rather than a
reduced rational) keeps every operation of the embedding computable by
the kernel; `Dec.toRat` gives the numeric meaning. -/
structure Dec where
  mant : Int
  scale : Nat
deriving DecidableEq, Repr

/-- Numeric value of an exact decimal. -/
def Dec.toRat (d : Dec) : ℚ :=
  (d.mant : ℚ) / (10 : ℚ) ^ d.scale

/-- Model of Python `float(s)` restricted to plain decimal literals, the
only shapes produced by the price texts this program parses: optional
sign, optional integer digits, optional fractional digits, with at least
one digit overall.  Exponent/`inf`/`nan` forms of `float` never occur here
and are not modelled.  The result is the exact decimal value. -/
def parseDecimal (s : String) : Option Dec :=
  let t := stripWS s.data
  let signed : Bool × List Char :=
    match t with
    | '+' :: r => (false, r)
    | '-' :: r => (true, r)
    | r => (false, r)
  let u := signed.2
  let ip := u.takeWhile Char.isDigit
  let rest := u.dropWhile Char.isDigit
  let mag : Option Dec :=
    match rest with
    | [] => if ip.isEmpty then none else some ⟨(natOfDigits ip : Int), 0⟩
    | '.' :: fp =>
      if fp.all Char.isDigit && (!ip.isEmpty || !fp.isEmpty) then
        some ⟨(natOfDigits ip * 10 ^ fp.length + natOfDigits fp : Nat), fp.length⟩
      else none
    | _ => none
  mag.map (fun d => if signed.1 then ⟨-d.mant, d.scale⟩ else d)

/-- Model of Python `int(s)` on strings: optional surrounding whitespace,
optional sign, then a non-empty run of decimal digits. -/
def pyParseInt (s : String) : Option Int :=
  let t := stripWS s.data
  match t with
  | '+' :: r => if r.isEmpty || !r.all Char.isDigit then none else some (natOfDigits r : Int)
  | '-' :: r => if r.isEmpty || !r.all Char.isDigit then none else some (-(natOfDigits r : Int))
  | r => if r.isEmpty || !r.all Char.isDigit then none else some (natOfDigits r : Int)

/-- Model of Python `text.replace("$", "")`: with a single-character
pattern and empty replacement this removes every occurrence of `$`
anywhere in the string. -/
def removeDollars (s : String) : String :=
  String.mk (s.data.filter (fun c => c != '$'))

/-- Model of `float(text.replace("$", ""))`, the price parsing used both at
`parse.py` line 51-53 (variant prices) and line 63 (base price). -/
def priceFromText (t : String) : Option Dec :=
  parseDecimal (removeDollars t)

/-- Accumulator pass over the characters for whitespace splitting: `acc`
holds the current word reversed; a whitespace run flushes it. -/
def splitWSAux : List Char → List Char → List String
  | [], acc => if acc.isEmpty then [] else [String.mk acc.reverse]
  | c :: rest, acc =>
    if c.isWhitespace then
      if acc.isEmpty then splitWSAux rest []
      else String.mk acc.reverse :: splitWSAux rest []
    else splitWSAux rest (c :: acc)

/-- Model of Python `s.split()` with no separator argument: split on runs
of whitespace, discarding empty pieces. -/
def pySplitWS (s : String) : List String :=
  splitWSAux s.data []

/-! ## Data model: snapshots, pages, driver, records -/

/-- One element of a parsed markup snapshot (a BeautifulSoup tag): its
text content and its attributes. -/
structure SoupElement where
  text : String
  attrs : List (String × String)
deriving DecidableEq, Repr

/-- Attribute access `elem[name]` as an `Option`: Python raises `KeyError` on a missing
attribute, modelled by `none`. -/
def SoupElement.attr (e : SoupElement) (name : String) : Option String :=
  (e.attrs.find? (fun a => a.1 == name)).map (fun a => a.2)

/-- A listing-entry snapshot: the sub-elements the `select_one` calls of
`parse_single_product` and `product_hdd_block_prices` can find, by
selector.  `none` models `select_one` returning `None`. -/
structure ProductSoup where
  titleElem : Option SoupElement        -- selector ".title"
  descriptionElem : Option SoupElement  -- selector ".description"
  priceElem : Option SoupElement        -- selector ".price"
  ratingElem : Option SoupElement       -- selector "p[data-rating]"
  reviewCountElem : Option SoupElement  -- selector ".review-count"
deriving DecidableEq, Repr

/-- One button inside the `swatches` group of a detail page: its
`disabled` property, its `value` property, and the text the `.price`
element displays after this button is clicked. -/
structure VariantButton where
  disabled : Bool
  value : String
  priceText : String
deriving DecidableEq, Repr

/-- A product detail page as the driver renders it: whether a `swatches`
element exists (`find_element` raises `NoSuchElementException`
otherwise), and the buttons found inside it. -/
structure DetailPage where
  hasSwatches : Bool
  buttons : List VariantButton
deriving DecidableEq, Repr

/-- A listing page as the driver renders it.  `loadMore` is the outcome
trace of successive find-and-click attempts on the load-more control
(`true` = the attempt succeeded, `false` = it raised); entries after the
first `false` are never consumed, and an all-`true` trace means the
modelled horizon ends before the loop does.  `thumbnails` are the
`.thumbnail` entries of the final page source. -/
structure ListingPage where
  loadMore : List Bool
  thumbnails : List ProductSoup
deriving DecidableEq, Repr

/-- The browser session: which listing page each URL serves and which
detail page each URL serves. -/
structure Driver where
  listings : List (String × ListingPage)
  details : List (String × DetailPage)
deriving DecidableEq, Repr

/-- A URL the driver was never given data for renders an error page: no
swatches group, no buttons. -/
def lookupDetail (d : Driver) (url : String) : DetailPage :=
  ((d.details.find? (fun e => e.1 == url)).map (fun e => e.2)).getD ⟨false, []⟩

/-- A listing URL the driver was never given data for renders a page with
no load-more control (the first attempt fails) and no thumbnails. -/
def lookupListing (d : Driver) (url : String) : ListingPage :=
  ((d.listings.find? (fun e => e.1 == url)).map (fun e => e.2)).getD ⟨[false], []⟩

/-- The `additional_info` dict of a `Product`.  `parse_single_product`
builds it as `{"hdd_prices": ...}`; `write_products_to_csv` reads the
keys `category` and `image` with `.get(key, "")`, so those keys are
carried as options that the builder leaves at `none`. -/
structure AdditionalInfo where
  hdd_prices : Option (List (String × Dec)) := none
  category : Option String := none
  image : Option String := none
deriving DecidableEq, Repr

/-- The `Product` dataclass of `parse.py` lines 17-24.  `price` is the
exact decimal value of the parsed literal, variant prices are an
insertion-ordered association list modelling the Python dict. -/
structure Product where
  title : String
  description : String
  price : Dec
  rating : Int
  num_of_reviews : Int
  additional_info : AdditionalInfo
deriving DecidableEq, Repr

/-- The Python exceptions `parse.py` can raise, collapsed to the classes
that matter: `noDriver` for the `AttributeError` of calling methods on a
`None` driver, `noSuchElement` for Selenium `NoSuchElementException`,
`missingField` for `TypeError`/`KeyError`/`AttributeError`/`IndexError`
on a missing snapshot element or attribute, `parseError` for
`ValueError` from `float`/`int`. -/
inductive ScrapeError where
  | noDriver
  | noSuchElement (selector : String)
  | missingField (field : String)
  | parseError (text : String)
deriving DecidableEq, Repr

/-- Success test on `Except`, as a named Boolean for statements about failure. -/
def isOkE {ε α : Type} : Except ε α → Bool
  | .ok _ => true
  | .error _ => false

/-! ## The module-level driver handle (`parse.py` lines 27-36) -/

/-- The module global `_driver: WebDriver | None = None`. -/
abbrev DriverState := Option Driver

/-- The state at import time: `_driver = None`. -/
def initState : DriverState := none

/-- Model of `get_driver()`: returns whatever `_driver` currently holds, with no
check (`parse.py` lines 30-31). -/
def get_driver (s : DriverState) : Option Driver := s

/-- Model of `set_driver(new_driver)`: stores the handle (`parse.py` lines 34-36). -/
def set_driver (_s : DriverState) (d : Driver) : DriverState :=
  some d

/-! ## Variant price discovery (`product_hdd_block_prices`, lines 39-55) -/

/-- The constant `BASE_URL` of `parse.py` line 11. -/
def BASE_URL : String := "https://webscraper.io/"

/-- Model of `urllib.parse.urljoin(base, rel)` for the inputs this
program produces: every `href`/section path is relative without a leading
slash, so joining is concatenation against the base origin. -/
def urljoin (base rel : String) : String := base ++ rel

/-- Python dict lookup on the insertion-ordered association list. -/
def lookupDict (d : List (String × Dec)) (k : String) : Option Dec :=
  (d.find? (fun e => e.1 == k)).map (fun e => e.2)

/-- Python dict assignment `d[k] = v`: overwrite in place when the key
exists, append otherwise. -/
def dictInsert (d : List (String × Dec)) (k : String) (v : Dec) : List (String × Dec) :=
  if d.any (fun e => e.1 == k) then
    d.map (fun e => if e.1 == k then (k, v) else e)
  else d ++ [(k, v)]

/-- The `for button in buttons` loop of `parse.py` lines 48-53: a
disabled button is skipped; an enabled one is clicked and the displayed
price text is parsed with `float(... .replace("$", ""))` — a parse
failure raises and aborts the product. -/
def discoverLoop : List VariantButton → List (String × Dec) → Except ScrapeError (List (String × Dec))
  | [], prices => .ok prices
  | b :: rest, prices =>
    if b.disabled then discoverLoop rest prices
    else
      match priceFromText b.priceText with
      | none => .error (.parseError b.priceText)
      | some q => discoverLoop rest (dictInsert prices b.value q)

/-- The detail-page part of `product_hdd_block_prices` after navigation:
`find_element(By.CLASS_NAME, "swatches")` raises when the group is
absent; otherwise the buttons inside it are processed in order starting
from the empty dict. -/
def discoverPrices (p : DetailPage) : Except ScrapeError (List (String × Dec)) :=
  if p.hasSwatches then discoverLoop p.buttons [] else .error (.noSuchElement "swatches")

/-- Model of `product_hdd_block_prices(product_soup)`, `parse.py` lines 39-55.
First the detail URL is computed from the snapshot (`select_one(".title")["href"]`,
raising on a missing element or attribute), then the module driver is
used (raising if it is still `None`), then the driver navigates and the
swatches group is explored. -/
def product_hdd_block_prices (soup : ProductSoup) (drv : Option Driver) :
    Except ScrapeError (List (String × Dec)) :=
  match soup.titleElem with
  | none => .error (.missingField ".title")
  | some te =>
    match te.attr "href" with
    | none => .error (.missingField ".title[href]")
    | some href =>
      match drv with
      | none => .error .noDriver
      | some d => discoverPrices (lookupDetail d (urljoin BASE_URL href))

/-! ## Record building (`parse_single_product`, lines 58-69) -/

/-- Model of `parse_single_product(product_soup)`, `parse.py` lines 58-69, with
the module driver made explicit.  Evaluation order matches Python:
`product_hdd_block_prices` runs first, then the constructor arguments
`title`, `description`, `price`, `rating`, `num_of_reviews` in order;
the first missing element/attribute or failed parse raises. -/
def parse_single_product (soup : ProductSoup) (drv : Option Driver) :
    Except ScrapeError Product :=
  match product_hdd_block_prices soup drv with
  | .error e => .error e
  | .ok hdd_prices =>
    match soup.titleElem with
    | none => .error (.missingField ".title")
    | some te =>
      match te.attr "title" with
      | none => .error (.missingField ".title[title]")
      | some title =>
        match soup.descriptionElem with
        | none => .error (.missingField ".description")
        | some de =>
          match soup.priceElem with
          | none => .error (.missingField ".price")
          | some pe =>
            match priceFromText pe.text with
            | none => .error (.parseError pe.text)
            | some price =>
              match soup.ratingElem with
              | none => .error (.missingField "p[data-rating]")
              | some re =>
                match re.attr "data-rating" with
                | none => .error (.missingField "p[data-rating][data-rating]")
                | some rs =>
                  match pyParseInt rs with
                  | none => .error (.parseError rs)
                  | some rating =>
                    match soup.reviewCountElem with
                    | none => .error (.missingField ".review-count")
                    | some rce =>
                      match (pySplitWS rce.text).head? with
                      | none => .error (.missingField ".review-count[0]")
                      | some tok =>
                        match pyParseInt tok with
                        | none => .error (.parseError tok)
                        | some num_of_reviews =>
                          .ok ⟨title, de.text, price, rating, num_of_reviews,
                               ⟨some hdd_prices, none, none⟩⟩

/-! ## Pagination and section scraping (`get_page_products`, lines 72-92) -/

/-- The `while True: try ... except: break` loop of `parse.py` lines
78-87 over a trace of interaction outcomes.  `some n` means the loop
terminated after `n` successful load-more clicks (the `n+1`-st attempt
raised and was swallowed by the blanket `except`); `none` means the
modelled trace ran out before any attempt failed, i.e. the loop is still
running at the model's horizon. -/
def paginationLoop : List Bool → Option Nat
  | [] => none
  | true :: rest => (paginationLoop rest).map (fun n => n + 1)
  | false :: _ => some 0

/-- The list comprehension of `parse.py` lines 91-92: build each
thumbnail's record left to right; the first exception propagates and
discards everything. -/
def parseAll (soups : List ProductSoup) (drv : Option Driver) :
    Except ScrapeError (List Product) :=
  match soups with
  | [] => .ok []
  | s :: rest =>
    match parse_single_product s drv with
    | .error e => .error e
    | .ok p =>
      match parseAll rest drv with
      | .error e => .error e
      | .ok ps => .ok (p :: ps)

deriving instance DecidableEq for Except

/-- Observable outcome of one `get_page_products` call: how many
load-more interactions were attempted, how many succeeded, and the value
returned (or the exception that propagated). -/
structure PageRun where
  attempts : Nat
  expansions : Nat
  result : Except ScrapeError (List Product)
deriving DecidableEq, Repr

/-- Model of `get_page_products(url, paginate)`, `parse.py` lines 72-92, against
the module driver state.  A `None` driver raises before anything else
(`driver.get` on `None`); with `paginate` the load-more loop runs to its
termination condition (`none` when the modelled trace never fails, since
the real loop would still be running); the final page source's
thumbnails are then parsed. -/
def get_page_products (st : DriverState) (url : String) (paginate : Bool) :
    Option PageRun :=
  match get_driver st with
  | none => some ⟨0, 0, .error .noDriver⟩
  | some d =>
    let page := lookupListing d url
    if paginate then
      match paginationLoop page.loadMore with
      | none => none
      | some n => some ⟨n + 1, n, parseAll page.thumbnails (some d)⟩
    else
      some ⟨0, 0, parseAll page.thumbnails (some d)⟩

/-! ## CSV export (`write_products_to_csv`, lines 95-113) -/

/-- The constant `PRODUCT_FIELDS` of `parse.py` line 12, the header row. -/
def PRODUCT_FIELDS : List String :=
  ["title", "price", "category", "description", "image"]

/-- One CSV cell before stringification, keeping the Python value's type:
`csv.writer` receives strings for text fields and numbers for
`price`/`rating`/`num_of_reviews`. -/
inductive Cell where
  | str (s : String)
  | num (q : Dec)
  | int (n : Int)
deriving DecidableEq, Repr

/-- The data row written for one product, `parse.py` lines 105-113. -/
def rowOf (p : Product) : List Cell :=
  [.str p.title, .str p.description, .num p.price, .int p.rating,
   .int p.num_of_reviews, .str (p.additional_info.category.getD ""),
   .str (p.additional_info.image.getD "")]

/-- Model of `write_products_to_csv(products, filename)`, `parse.py` lines
95-113, as the sequence of rows written to the file: one header row of
`PRODUCT_FIELDS`, then one data row per product in order.  File-handle
mechanics are the external writer collaborator and are not modelled. -/
def write_products_to_csv (products : List Product) : List (List Cell) :=
  (PRODUCT_FIELDS.map Cell.str) :: products.map rowOf

/-- The cell a record's field with the given header name would hold:
formalises "the field values in the positions the header names". -/
def namedCell (p : Product) : String → Cell
  | "title" => .str p.title
  | "price" => .num p.price
  | "category" => .str (p.additional_info.category.getD "")
  | "description" => .str p.description
  | "image" => .str (p.additional_info.image.getD "")
  | "rating" => .int p.rating
  | "review_count" => .int p.num_of_reviews
  | _ => .str ""

/-! ## Concrete fixtures for witness evaluations -/

/-- A well-formed listing entry: title attribute `Prod A`, link text
`LinkText`, description, price `$5.00`, rating 4, `12 reviews`. -/
def soupA : ProductSoup :=
  ⟨some ⟨"LinkText", [("title", "Prod A"), ("href", "a")]⟩,
   some ⟨"descA", []⟩, some ⟨"$5.00", []⟩,
   some ⟨"", [("data-rating", "4")]⟩, some ⟨"12 reviews", []⟩⟩

/-- A listing entry whose description element is missing. -/
def soupB : ProductSoup :=
  ⟨some ⟨"LinkB", [("title", "Prod B"), ("href", "b")]⟩,
   none, some ⟨"$7.00", []⟩,
   some ⟨"", [("data-rating", "3")]⟩, some ⟨"7 reviews", []⟩⟩

/-- A driver serving one listing page `L` holding `soupA` and `soupB`,
whose detail pages both have an empty swatches group. -/
def exDriver : Driver :=
  ⟨[("L", ⟨[false], [soupA, soupB]⟩)],
   [("https://webscraper.io/a", ⟨true, []⟩), ("https://webscraper.io/b", ⟨true, []⟩)]⟩

/-! ## Helper lemmas about the dict model -/

theorem lookupDict_nil (k : String) : lookupDict [] k = none := rfl

theorem lookupDict_cons_pos (a : String × Dec) (tl : List (String × Dec)) (k : String)
    (h : a.1 = k) : lookupDict (a :: tl) k = some a.2 := by
  simp [lookupDict, List.find?_cons_of_pos, h]

theorem lookupDict_cons_neg (a : String × Dec) (tl : List (String × Dec)) (k : String)
    (h : ¬ a.1 = k) : lookupDict (a :: tl) k = lookupDict tl k := by
  simp only [lookupDict]
  rw [List.find?_cons_of_neg]
  simp [h]

theorem lookupDict_map_self (k : String) (v : Dec) :
    ∀ d : List (String × Dec), d.any (fun e => e.1 == k) = true →
      lookupDict (d.map (fun e => if e.1 == k then (k, v) else e)) k = some v := by
  intro d
  induction d with
  | nil => intro h; simp at h
  | cons a tl ih =>
    intro h
    rw [List.map_cons]
    by_cases ha : a.1 = k
    · rw [if_pos (by simp [ha])]
      exact lookupDict_cons_pos _ _ _ rfl
    · rw [if_neg (by simp [ha])]
      rw [lookupDict_cons_neg _ _ _ ha]
      apply ih
      simp only [List.any_cons, Bool.or_eq_true] at h
      rcases h with h | h
      · exact absurd (by simpa using h) ha
      · exact h

theorem lookupDict_append_self (k : String) (v : Dec) :
    ∀ d : List (String × Dec), d.any (fun e => e.1 == k) = false →
      lookupDict (d ++ [(k, v)]) k = some v := by
  intro d
  induction d with
  | nil => intro _; exact lookupDict_cons_pos _ _ _ rfl
  | cons a tl ih =>
    intro h
    simp only [List.any_cons, Bool.or_eq_false_iff] at h
    rw [List.cons_append, lookupDict_cons_neg _ _ _ (by simpa using h.1)]
    exact ih h.2

theorem lookupDict_dictInsert_self (d : List (String × Dec)) (k : String) (v : Dec) :
    lookupDict (dictInsert d k v) k = some v := by
  unfold dictInsert
  split
  · rename_i h
    exact lookupDict_map_self k v d h
  · rename_i h
    have h' : d.any (fun e => e.1 == k) = false := by
      cases hx : d.any (fun e => e.1 == k) with
      | false => rfl
      | true => exact absurd hx h
    exact lookupDict_append_self k v d h'

theorem lookupDict_map_other (k q : String) (v : Dec) (hne : ¬ q = k) :
    ∀ d : List (String × Dec),
      lookupDict (d.map (fun e => if e.1 == k then (k, v) else e)) q = lookupDict d q := by
  intro d
  induction d with
  | nil => rfl
  | cons a tl ih =>
    rw [List.map_cons]
    by_cases ha : a.1 = k
    · rw [if_pos (by simp [ha])]
      rw [lookupDict_cons_neg _ _ _ (fun h => hne h.symm)]
      rw [lookupDict_cons_neg _ _ _ (fun h => hne (by rw [← ha, h]))]
      exact ih
    · rw [if_neg (by simp [ha])]
      by_cases haq : a.1 = q
      · rw [lookupDict_cons_pos _ _ _ haq, lookupDict_cons_pos _ _ _ haq]
      · rw [lookupDict_cons_neg _ _ _ haq, lookupDict_cons_neg _ _ _ haq]
        exact ih

theorem lookupDict_append_other (k q : String) (v : Dec) (hne : ¬ q = k) :
    ∀ d : List (String × Dec),
      lookupDict (d ++ [(k, v)]) q = lookupDict d q := by
  intro d
  induction d with
  | nil =>
    rw [List.nil_append, lookupDict_cons_neg _ _ _ (fun h => hne h.symm)]
  | cons a tl ih =>
    by_cases ha : a.1 = q
    · rw [List.cons_append, lookupDict_cons_pos _ _ _ ha, lookupDict_cons_pos _ _ _ ha]
    · rw [List.cons_append, lookupDict_cons_neg _ _ _ ha, lookupDict_cons_neg _ _ _ ha]
      exact ih

theorem lookupDict_dictInsert_other (d : List (String × Dec)) (k q : String) (v : Dec)
    (hne : ¬ q = k) : lookupDict (dictInsert d k v) q = lookupDict d q := by
  unfold dictInsert
  split
  · exact lookupDict_map_other k q v hne d
  · exact lookupDict_append_other k q v hne d

/-! ## Helper lemmas about the variant-discovery loop -/

theorem discoverLoop_frame (k : String) :
    ∀ (bs : List VariantButton) (acc m : List (String × Dec)),
      discoverLoop bs acc = .ok m →
      (∀ b ∈ bs, b.disabled = false → ¬ b.value = k) →
      lookupDict m k = lookupDict acc k := by
  intro bs
  induction bs with
  | nil =>
    intro acc m hok _
    simp only [discoverLoop] at hok
    cases hok
    rfl
  | cons b rest ih =>
    intro acc m hok hne
    simp only [discoverLoop] at hok
    by_cases hd : b.disabled
    · rw [if_pos hd] at hok
      exact ih acc m hok (fun x hx => hne x (List.mem_cons_of_mem b hx))
    · rw [if_neg hd] at hok
      cases hpt : priceFromText b.priceText with
      | none => rw [hpt] at hok; cases hok
      | some q =>
        rw [hpt] at hok
        have hkne : ¬ b.value = k :=
          hne b (List.mem_cons_self b rest) (Bool.eq_false_iff.mpr hd)
        rw [ih _ m hok (fun x hx => hne x (List.mem_cons_of_mem b hx))]
        exact lookupDict_dictInsert_other acc b.value k q (fun h => hkne h.symm)

theorem discoverLoop_lookup :
    ∀ (bs : List VariantButton) (acc m : List (String × Dec)),
      (bs.map VariantButton.value).Nodup →
      discoverLoop bs acc = .ok m →
      (∀ b ∈ bs, b.disabled = true → lookupDict m b.value = lookupDict acc b.value) ∧
      (∀ b ∈ bs, b.disabled = false → lookupDict m b.value = priceFromText b.priceText) := by
  intro bs
  induction bs with
  | nil =>
    intro acc m _ hok
    exact ⟨fun b hb => absurd hb (List.not_mem_nil b), fun b hb => absurd hb (List.not_mem_nil b)⟩
  | cons c rest ih =>
    intro acc m hnd hok
    simp only [List.map_cons, List.nodup_cons] at hnd
    obtain ⟨hcv, hndr⟩ := hnd
    simp only [discoverLoop] at hok
    by_cases hd : c.disabled
    · rw [if_pos hd] at hok
      have hrest := ih acc m hndr hok
      constructor
      · intro b hb hbd
        rcases List.mem_cons.mp hb with hbc | hbr
        · subst hbc
          exact discoverLoop_frame b.value rest acc m hok
            (fun x hx hxe hxv => hcv (hxv ▸ List.mem_map_of_mem VariantButton.value hx))
        · exact hrest.1 b hbr hbd
      · intro b hb hbe
        rcases List.mem_cons.mp hb with hbc | hbr
        · subst hbc
          rw [hbe] at hd
          exact Bool.noConfusion hd
        · exact hrest.2 b hbr hbe
    · rw [if_neg hd] at hok
      cases hpt : priceFromText c.priceText with
      | none => rw [hpt] at hok; cases hok
      | some q =>
        rw [hpt] at hok
        have hrest := ih _ m hndr hok
        constructor
        · intro b hb hbd
          rcases List.mem_cons.mp hb with hbc | hbr
          · subst hbc
            exact absurd hbd hd
          · have hbk : ¬ b.value = c.value := by
              intro hv
              exact hcv (hv ▸ List.mem_map_of_mem VariantButton.value hbr)
            rw [hrest.1 b hbr hbd]
            exact lookupDict_dictInsert_other acc c.value b.value q hbk
        · intro b hb hbe
          rcases List.mem_cons.mp hb with hbc | hbr
          · subst hbc
            rw [discoverLoop_frame b.value rest _ m hok
              (fun x hx hxe hxv => hcv (hxv ▸ List.mem_map_of_mem VariantButton.value hx))]
            rw [lookupDict_dictInsert_self acc b.value q]
            exact hpt.symm
          · exact hrest.2 b hbr hbe

theorem discoverLoop_all_disabled :
    ∀ (bs : List VariantButton) (acc : List (String × Dec)),
      (∀ b ∈ bs, b.disabled = true) → discoverLoop bs acc = .ok acc := by
  intro bs
  induction bs with
  | nil => intro acc _; rfl
  | cons c rest ih =>
    intro acc hall
    simp only [discoverLoop]
    rw [if_pos (hall c (List.mem_cons_self c rest))]
    exact ih acc (fun b hb => hall b (List.mem_cons_of_mem c hb))

/-! ## Helper lemmas about pagination and section parsing -/

theorem paginationLoop_first_false :
    ∀ (n : Nat) (rest : List Bool),
      paginationLoop (List.replicate n true ++ false :: rest) = some n := by
  intro n
  induction n with
  | zero => intro rest; rfl
  | succ m ih =>
    intro rest
    rw [List.replicate_succ, List.cons_append]
    simp only [paginationLoop, ih rest]
    rfl

theorem parseAll_error_of_mem_fail (drv : Option Driver) :
    ∀ (soups : List ProductSoup) (s : ProductSoup),
      s ∈ soups → isOkE (parse_single_product s drv) = false →
      ∃ e, parseAll soups drv = .error e := by
  intro soups
  induction soups with
  | nil => intro s hs _; exact absurd hs (List.not_mem_nil s)
  | cons a tl ih =>
    intro s hs hfail
    rcases List.mem_cons.mp hs with hsa | hst
    · subst hsa
      cases hp : parse_single_product s drv with
      | error e => exact ⟨e, by simp only [parseAll, hp]⟩
      | ok p => rw [hp] at hfail; cases hfail
    · cases hp : parse_single_product a drv with
      | error e => exact ⟨e, by simp only [parseAll, hp]⟩
      | ok p =>
        obtain ⟨e, he⟩ := ih s hst hfail
        exact ⟨e, by simp only [parseAll, hp, he]⟩

theorem contains_dollar_filter :
    ∀ l : List Char, ((l.filter (fun c => c != '$')).contains '$') = false := by
  intro l
  induction l with
  | nil => rfl
  | cons c tl ih =>
    by_cases hc : c = '$'
    · subst hc
      simp only [List.filter_cons]
      rw [if_neg (by simp)]
      exact ih
    · simp only [List.filter_cons]
      rw [if_pos (by simpa using hc)]
      simp only [List.contains_cons, ih, Bool.or_false]
      have hne : ¬ ('$' = c) := fun h => hc h.symm
      simpa using hne

theorem get_page_products_nopaginate (d : Driver) (url : String) :
    get_page_products (some d) url false =
      some ⟨0, 0, parseAll (lookupListing d url).thumbnails (some d)⟩ := rfl

theorem get_page_products_paginate (d : Driver) (url : String) :
    get_page_products (some d) url true =
      match paginationLoop (lookupListing d url).loadMore with
      | none => none
      | some n => some ⟨n + 1, n, parseAll (lookupListing d url).thumbnails (some d)⟩ := rfl

/-! ## Claims -/

/-- C1 (counterexample): for a listing entry whose detail page has no
swatches group, `product_hdd_block_prices` does not return an empty
mapping — `find_element(By.CLASS_NAME, "swatches")` raises, and the
error propagates. -/
theorem c1_counterexample :
    product_hdd_block_prices ⟨some ⟨"", [("href", "p1")]⟩, none, none, none, none⟩
      (some ⟨[], []⟩) = .error (.noSuchElement "swatches") ∧
    ¬ product_hdd_block_prices ⟨some ⟨"", [("href", "p1")]⟩, none, none, none, none⟩
      (some ⟨[], []⟩) = .ok [] := by
  decide

/-- C1 (amended): whenever the detail page the entry links to has no
swatches group, `product_hdd_block_prices` raises a no-such-element
error (which propagates to the caller) instead of returning an empty
mapping. -/
theorem c1_swatches_absent_raises (d : Driver) (soup : ProductSoup) (te : SoupElement)
    (href : String) (hte : soup.titleElem = some te)
    (hhref : te.attr "href" = some href)
    (hsw : (lookupDetail d (urljoin BASE_URL href)).hasSwatches = false) :
    product_hdd_block_prices soup (some d) = .error (.noSuchElement "swatches") := by
  simp [product_hdd_block_prices, hte, hhref, discoverPrices, hsw]

/-- C1 witness: the amended statement at a concrete entry and driver. -/
theorem c1_swatches_absent_raises_witness :
    product_hdd_block_prices ⟨some ⟨"", [("href", "p2")]⟩, none, none, none, none⟩
      (some ⟨[], []⟩) = .error (.noSuchElement "swatches") :=
  c1_swatches_absent_raises ⟨[], []⟩
    ⟨some ⟨"", [("href", "p2")]⟩, none, none, none, none⟩
    ⟨"", [("href", "p2")]⟩ "p2" rfl (by decide) (by decide)

/-- C2 (counterexample): on a listing page with one well-formed entry and
one entry missing its description, the section does not keep the other
record — the exception propagates out of `get_page_products` and no
record list is produced at all. -/
theorem c2_counterexample :
    get_page_products (some exDriver) "L" false =
      some ⟨0, 0, .error (.missingField ".description")⟩ ∧
    isOkE (parse_single_product soupA (some exDriver)) = true := by
  decide

/-- C2 (amended): if building any one record of a listing page fails,
the whole section aborts: `get_page_products` propagates the error and
returns no record list (the failed record is not skipped). -/
theorem c2_failed_record_aborts_section (d : Driver) (url : String) (s : ProductSoup)
    (hmem : s ∈ (lookupListing d url).thumbnails)
    (hfail : isOkE (parse_single_product s (some d)) = false) :
    ∃ e, get_page_products (some d) url false = some ⟨0, 0, .error e⟩ := by
  obtain ⟨e, he⟩ :=
    parseAll_error_of_mem_fail (some d) (lookupListing d url).thumbnails s hmem hfail
  exact ⟨e, by rw [get_page_products_nopaginate, he]⟩

/-- C2 witness: the amended statement at the concrete two-entry page. -/
theorem c2_failed_record_aborts_section_witness :
    ∃ e, get_page_products (some exDriver) "L" false = some ⟨0, 0, .error e⟩ :=
  c2_failed_record_aborts_section exDriver "L" soupB (by decide) (by decide)

/-- C3 (counterexample): the header row is
`[title, price, category, description, image]`, not
`[title, description, price, rating, review_count, ...]` — position 1 is
named `price` — and re-reading the artifact at the column the header
names `price` yields the record's description, not its price. -/
theorem c3_counterexample :
    PRODUCT_FIELDS.get? 1 = some "price" ∧
    ¬ PRODUCT_FIELDS.get? 1 = some "description" ∧
    ((write_products_to_csv [⟨"t", "d", ⟨3, 0⟩, 4, 5, ⟨some [], none, none⟩⟩]).get? 1).bind
        (fun r => r.get? 1) = some (Cell.str "d") ∧
    namedCell ⟨"t", "d", ⟨3, 0⟩, 4, 5, ⟨some [], none, none⟩⟩ "price" = Cell.num ⟨3, 0⟩ ∧
    ¬ (Cell.str "d" = Cell.num ⟨3, 0⟩) := by
  decide

/-- C3 (amended): `write_products_to_csv` writes exactly one header row
holding the fixed names `PRODUCT_FIELDS = [title, price, category,
description, image]`, followed by exactly N data rows, the i-th data row
being the row of the i-th record; re-reading therefore yields each
record's values by writing position — but not in the positions the
header names (see C8). -/
theorem c3_csv_rows_structure (ps : List Product) :
    (write_products_to_csv ps).length = ps.length + 1 ∧
    (write_products_to_csv ps).head? = some (PRODUCT_FIELDS.map Cell.str) ∧
    ∀ (i : Nat) (h : i < ps.length),
      (write_products_to_csv ps).get? (i + 1) = some (rowOf (ps.get ⟨i, h⟩)) := by
  refine ⟨by simp [write_products_to_csv], rfl, ?_⟩
  intro i h
  simp only [write_products_to_csv, List.get?_cons_succ, List.get?_map]
  rw [List.get?_eq_get h]
  rfl

/-- C3 witness: the amended statement at a concrete one-record list. -/
theorem c3_csv_rows_structure_witness :
    (write_products_to_csv [⟨"t", "d", ⟨3, 0⟩, 4, 5, ⟨some [], none, none⟩⟩]).get? 1 =
      some (rowOf ⟨"t", "d", ⟨3, 0⟩, 4, 5, ⟨some [], none, none⟩⟩) :=
  (c3_csv_rows_structure [⟨"t", "d", ⟨3, 0⟩, 4, 5, ⟨some [], none, none⟩⟩]).2.2 0
    (by decide)

/-- C4: the pagination loop terminates at the first interaction failure
— after `n` successful load-more clicks followed by one failing attempt
it stops with exactly `n` expansions, whatever comes after — and on a
page whose load-more control fails at the very first attempt (e.g. it is
always absent), `get_page_products` performs one attempt, zero
expansions, swallows the failure, and still parses the page. -/
theorem c4_pagination_stops_on_first_failure :
    (∀ (n : Nat) (rest : List Bool),
        paginationLoop (List.replicate n true ++ false :: rest) = some n) ∧
    (∀ (d : Driver) (url : String) (rest : List Bool),
        (lookupListing d url).loadMore = false :: rest →
        get_page_products (some d) url true =
          some ⟨1, 0, parseAll (lookupListing d url).thumbnails (some d)⟩) := by
  refine ⟨paginationLoop_first_false, ?_⟩
  intro d url rest h
  rw [get_page_products_paginate, h]
  rfl

/-- C4 witness: one successful click then a failure stops with one
expansion; a first-attempt failure gives one attempt, zero expansions,
and a normally parsed (empty) page. -/
theorem c4_pagination_stops_on_first_failure_witness :
    paginationLoop [true, false] = some 1 ∧
    get_page_products (some ⟨[("P", ⟨[false], []⟩)], []⟩) "P" true =
      some ⟨1, 0, Except.ok []⟩ :=
  ⟨c4_pagination_stops_on_first_failure.1 1 [],
   c4_pagination_stops_on_first_failure.2 ⟨[("P", ⟨[false], []⟩)], []⟩ "P" [] (by decide)⟩

/-- C5: with every required element present and well-formed, the record
builder yields the title attribute (not the link text), the description
element's text, the price text with `$` stripped parsed as a decimal,
the `data-rating` attribute parsed as an integer, and the first
whitespace-delimited token of the review-count text parsed as an
integer, with the variant mapping stored under `hdd_prices`. -/
theorem c5_record_builder_fields (soup : ProductSoup) (drv : Option Driver)
    (hp : List (String × Dec)) (te de pe re rce : SoupElement)
    (ttl rs tok : String) (pr : Dec) (rv nrev : Int)
    (hhdd : product_hdd_block_prices soup drv = .ok hp)
    (hte : soup.titleElem = some te)
    (httl : te.attr "title" = some ttl)
    (hde : soup.descriptionElem = some de)
    (hpe : soup.priceElem = some pe)
    (hpr : priceFromText pe.text = some pr)
    (hre : soup.ratingElem = some re)
    (hrs : re.attr "data-rating" = some rs)
    (hrv : pyParseInt rs = some rv)
    (hrce : soup.reviewCountElem = some rce)
    (htok : (pySplitWS rce.text).head? = some tok)
    (hnrev : pyParseInt tok = some nrev) :
    parse_single_product soup drv =
      .ok ⟨ttl, de.text, pr, rv, nrev, ⟨some hp, none, none⟩⟩ := by
  simp [parse_single_product, hhdd, hte, httl, hde, hpe, hpr, hre, hrs, hrv, hrce,
        htok, hnrev]

/-- C5 witness: the concrete entry `soupA` builds the expected record;
note the title is the `title` attribute `Prod A`, not the link text
`LinkText`, the price `$5.00` parses to `5.00`, and `12 reviews` gives
review count 12. -/
theorem c5_record_builder_fields_witness :
    parse_single_product soupA (some exDriver) =
      .ok ⟨"Prod A", "descA", ⟨500, 2⟩, 4, 12, ⟨some [], none, none⟩⟩ :=
  c5_record_builder_fields soupA (some exDriver) []
    ⟨"LinkText", [("title", "Prod A"), ("href", "a")]⟩ ⟨"descA", []⟩ ⟨"$5.00", []⟩
    ⟨"", [("data-rating", "4")]⟩ ⟨"12 reviews", []⟩
    "Prod A" "4" "12" ⟨500, 2⟩ 4 12
    (by decide) (by decide) (by decide) (by decide) (by decide) (by decide)
    (by decide) (by decide) (by decide) (by decide) (by decide) (by decide)

/-- C6: when variant discovery succeeds on a detail page whose control
identifiers are distinct, no disabled control's identifier is a key of
the result, and every enabled control's identifier maps to the parsed
displayed price read after selecting it; moreover a page of only
disabled controls is processed without error, yielding the empty
mapping. -/
theorem c6_disabled_skipped_enabled_recorded :
    (∀ (p : DetailPage) (m : List (String × Dec)),
        (p.buttons.map VariantButton.value).Nodup →
        discoverPrices p = .ok m →
        (∀ b ∈ p.buttons, b.disabled = true → lookupDict m b.value = none) ∧
        (∀ b ∈ p.buttons, b.disabled = false →
            lookupDict m b.value = priceFromText b.priceText)) ∧
    (∀ p : DetailPage, p.hasSwatches = true →
        (∀ b ∈ p.buttons, b.disabled = true) → discoverPrices p = .ok []) := by
  constructor
  · intro p m hnd hok
    unfold discoverPrices at hok
    by_cases hs : p.hasSwatches
    · rw [if_pos hs] at hok
      have h := discoverLoop_lookup p.buttons [] m hnd hok
      exact ⟨fun b hb hbd => (h.1 b hb hbd).trans (lookupDict_nil b.value), h.2⟩
    · rw [if_neg hs] at hok
      cases hok
  · intro p hs hall
    unfold discoverPrices
    rw [if_pos hs]
    exact discoverLoop_all_disabled p.buttons [] hall

/-- C6 witness: the spec scenario — three controls, the second disabled,
the others showing `$10.00` and `$12.50` — yields a mapping without
`id2` in which `id1` and `id3` carry the prices displayed after their
selection, numerically 10 and 12.5. -/
theorem c6_disabled_skipped_enabled_recorded_witness :
    lookupDict [("id1", ⟨1000, 2⟩), ("id3", ⟨1250, 2⟩)] "id2" = none ∧
    lookupDict [("id1", ⟨1000, 2⟩), ("id3", ⟨1250, 2⟩)] "id1" = priceFromText "$10.00" ∧
    lookupDict [("id1", ⟨1000, 2⟩), ("id3", ⟨1250, 2⟩)] "id3" = priceFromText "$12.50" ∧
    Dec.toRat ⟨1000, 2⟩ = 10 ∧ Dec.toRat ⟨1250, 2⟩ = 25 / 2 := by
  have h := c6_disabled_skipped_enabled_recorded.1
    ⟨true, [⟨false, "id1", "$10.00"⟩, ⟨true, "id2", "$99.99"⟩, ⟨false, "id3", "$12.50"⟩]⟩
    [("id1", ⟨1000, 2⟩), ("id3", ⟨1250, 2⟩)] (by decide) (by decide)
  exact ⟨h.1 ⟨true, "id2", "$99.99"⟩ (by decide) rfl,
         h.2 ⟨false, "id1", "$10.00"⟩ (by decide) rfl,
         h.2 ⟨false, "id3", "$12.50"⟩ (by decide) rfl,
         by norm_num [Dec.toRat], by norm_num [Dec.toRat]⟩

/-- C7: with `paginate = false` the load-more loop is never entered —
zero interaction attempts, whatever the page serves, even a page whose
load-more control is present — and with `paginate = true` the loop
always makes at least one attempt. -/
theorem c7_paginate_flag_gates_loop :
    (∀ (d : Driver) (url : String),
        get_page_products (some d) url false =
          some ⟨0, 0, parseAll (lookupListing d url).thumbnails (some d)⟩) ∧
    (∀ (d : Driver) (url : String) (r : PageRun),
        get_page_products (some d) url true = some r → 1 ≤ r.attempts) := by
  refine ⟨get_page_products_nopaginate, ?_⟩
  intro d url r h
  rw [get_page_products_paginate] at h
  cases hp : paginationLoop (lookupListing d url).loadMore with
  | none => rw [hp] at h; cases h
  | some n =>
    rw [hp] at h
    cases h
    show 1 ≤ n + 1
    omega

/-- C7 witness: a page with a present (once-clickable) load-more control
is not expanded at all when `paginate = false`, and makes attempts when
`paginate = true`. -/
theorem c7_paginate_flag_gates_loop_witness :
    get_page_products (some ⟨[("P", ⟨[true, false], []⟩)], []⟩) "P" false =
      some ⟨0, 0, Except.ok []⟩ ∧
    1 ≤ (PageRun.mk 2 1 (Except.ok [])).attempts :=
  ⟨c7_paginate_flag_gates_loop.1 ⟨[("P", ⟨[true, false], []⟩)], []⟩ "P",
   c7_paginate_flag_gates_loop.2 ⟨[("P", ⟨[true, false], []⟩)], []⟩ "P"
     ⟨2, 1, Except.ok []⟩ (by decide)⟩

/-- C8: every data row has exactly 7 cells while the header row has
exactly 5 names — arities differing by 2 — and at every column position
from 1 to 4 the cell written is not the field the header names there. -/
theorem c8_header_row_arity_mismatch :
    (∀ p : Product, (rowOf p).length = 7) ∧
    PRODUCT_FIELDS.length = 5 ∧
    (∀ (ps : List Product) (row : List Cell),
        row ∈ (write_products_to_csv ps).tail → row.length = 7) ∧
    (∀ (p : Product) (i : Nat), 1 ≤ i → i ≤ 4 →
        ¬ (rowOf p).get? i = (PRODUCT_FIELDS.get? i).map (namedCell p)) := by
  refine ⟨fun p => rfl, rfl, ?_, ?_⟩
  · intro ps row hrow
    simp only [write_products_to_csv, List.tail_cons] at hrow
    obtain ⟨p, hp, rfl⟩ := List.mem_map.mp hrow
    rfl
  · intro p i h1 h4
    interval_cases i
    · simp [rowOf, PRODUCT_FIELDS, namedCell]
    · simp [rowOf, PRODUCT_FIELDS, namedCell]
    · simp [rowOf, PRODUCT_FIELDS, namedCell]
    · simp [rowOf, PRODUCT_FIELDS, namedCell]

/-- C8 witness: the arity and mismatch facts at a concrete record. -/
theorem c8_header_row_arity_mismatch_witness :
    (rowOf ⟨"t", "d", ⟨3, 0⟩, 4, 5, ⟨some [], none, none⟩⟩).length = 7 ∧
    ¬ (rowOf ⟨"t", "d", ⟨3, 0⟩, 4, 5, ⟨some [], none, none⟩⟩).get? 1 =
        (PRODUCT_FIELDS.get? 1).map
          (namedCell ⟨"t", "d", ⟨3, 0⟩, 4, 5, ⟨some [], none, none⟩⟩) :=
  ⟨c8_header_row_arity_mismatch.2.2.1 [⟨"t", "d", ⟨3, 0⟩, 4, 5, ⟨some [], none, none⟩⟩]
      (rowOf ⟨"t", "d", ⟨3, 0⟩, 4, 5, ⟨some [], none, none⟩⟩) (by decide),
   c8_header_row_arity_mismatch.2.2.2 ⟨"t", "d", ⟨3, 0⟩, 4, 5, ⟨some [], none, none⟩⟩ 1
     (by decide) (by decide)⟩

/-- C9: the price normalization removes every `$` anywhere in the text
(not only a leading currency prefix) before decimal parsing — `1$0.5`
normalizes to `10.5` and parses to 10.5 (while without removal it would
fail) — on both call sites: the variant-price read and the base-price
field of the record builder. -/
theorem c9_dollar_removed_everywhere :
    (∀ s : String, ((removeDollars s).data.contains '$') = false) ∧
    removeDollars "1$0.5" = "10.5" ∧
    priceFromText "1$0.5" = some ⟨105, 1⟩ ∧
    parseDecimal "1$0.5" = none ∧
    Dec.toRat ⟨105, 1⟩ = 21 / 2 ∧
    (∀ v : String, discoverPrices ⟨true, [⟨false, v, "1$0.5"⟩]⟩ = .ok [(v, ⟨105, 1⟩)]) ∧
    parse_single_product
      ⟨some ⟨"", [("title", "T"), ("href", "x")]⟩, some ⟨"D", []⟩,
       some ⟨"1$0.5", []⟩, some ⟨"", [("data-rating", "4")]⟩, some ⟨"7 reviews", []⟩⟩
      (some ⟨[], [("https://webscraper.io/x", ⟨true, []⟩)]⟩) =
      .ok ⟨"T", "D", ⟨105, 1⟩, 4, 7, ⟨some [], none, none⟩⟩ := by
  refine ⟨fun s => contains_dollar_filter s.data, by decide, by decide, by decide,
          by norm_num [Dec.toRat], ?_, by decide⟩
  intro v
  have hp : priceFromText "1$0.5" = some ⟨105, 1⟩ := by decide
  show discoverLoop [⟨false, v, "1$0.5"⟩] [] = .ok [(v, ⟨105, 1⟩)]
  simp [discoverLoop, hp, dictInsert]

/-- C10: the module driver handle starts as `None`; `get_driver` returns
whatever was last stored with no check; `set_driver` overwrites it; and
invoking `get_page_products` or `product_hdd_block_prices` before any
`set_driver` fails rather than degrading gracefully. -/
theorem c10_driver_global_unchecked :
    initState = none ∧
    get_driver initState = none ∧
    (∀ (st : DriverState) (d : Driver), get_driver (set_driver st d) = some d) ∧
    (∀ (url : String) (pg : Bool),
        get_page_products initState url pg = some ⟨0, 0, .error .noDriver⟩) ∧
    (∀ soup : ProductSoup,
        isOkE (product_hdd_block_prices soup (get_driver initState)) = false) := by
  refine ⟨rfl, rfl, fun st d => rfl, fun url pg => rfl, ?_⟩
  intro soup
  cases hte : soup.titleElem with
  | none => simp [product_hdd_block_prices, hte, isOkE]
  | some te =>
    cases ha : te.attr "href" with
    | none => simp [product_hdd_block_prices, hte, ha, isOkE]
    | some href =>
      simp [product_hdd_block_prices, hte, ha, isOkE, get_driver, initState]

end Scrape
